import Mathlib

/-!
Shallow embedding of the token issuance / verification logic of
`app/core/security.py` and the authentication dependencies of
`app/core/deps.py`.

Modelling conventions:
* Timestamps and lifetimes are integers (seconds since epoch).  The
  process runs with TZ = UTC, so `datetime.utcnow()`,
  `datetime.fromtimestamp` and `timegm(utctimetuple())` all agree at
  integer-second granularity; a single `now : Int` is threaded through
  every operation that reads the clock.
* A JWT string is abstracted as either a structurally undecodable blob
  (`Jwt.malformed`) or a well-formed token carrying its payload and the
  key it was signed with (`Jwt.signed`): signature verification under
  key `key` succeeds exactly when the signing key equals `key`.
* Python dicts of claims become association lists with dict `get` /
  `update` semantics (`pget` / `pset`).
* Raised `HTTPException`s become `Except.error` carrying status code and
  detail string.
-/

/-- A JSON claim value as it occurs in token payloads: the code only ever
stores strings (`sub`, `type`) and integer timestamps (`exp`, `iat`);
caller-supplied extra claims are opaque and covered by the same two
shapes. -/
inductive CVal where
  | str (s : String)
  | int (n : Int)
  deriving DecidableEq, Repr

/-- A token payload: a Python dict from claim name to value. -/
abbrev Payload := List (String × CVal)

/-- Python `dict.get`: the value stored under `key`, if any (keys in a
`Payload` built by `pset` are unique, first match wins). -/
def pget : Payload → String → Option CVal
  | [], _ => none
  | (k, v) :: rest, key => if k = key then some v else pget rest key

/-- Python `dict` assignment / one key of `dict.update`: overwrite the
existing binding in place, or append a new one. -/
def pset : Payload → String → CVal → Payload
  | [], key, v => [(key, v)]
  | (k, w) :: rest, key, v =>
      if k = key then (k, v) :: rest else (k, w) :: pset rest key v

/-- Python built-in `int(s)` on a string: strip surrounding whitespace,
optional sign, then a nonempty run of decimal digits; anything else
raises `ValueError`, modelled as `none`.  (Digit-group underscores are
not modelled; no input considered here uses them.) -/
def parseDigitsAux : List Char → Nat → Option Nat
  | [], acc => some acc
  | c :: cs, acc =>
      if c.isDigit then parseDigitsAux cs (acc * 10 + (c.toNat - 48)) else none

/-- ASCII whitespace stripped by Python `int(str)`. -/
def isPySpace (c : Char) : Bool :=
  c = ' ' || c = '\t' || c = '\n' || c = '\r' || c = '\x0b' || c = '\x0c'

/-- Strip surrounding whitespace from a character list. -/
def trimChars (cs : List Char) : List Char :=
  ((cs.dropWhile isPySpace).reverse.dropWhile isPySpace).reverse

/-- Python `int(str)`: see `parseDigitsAux`. -/
def parseIntPy (s : String) : Option Int :=
  match trimChars s.toList with
  | [] => none
  | '-' :: rest =>
      match rest with
      | [] => none
      | _ => (parseDigitsAux rest 0).map (fun n => -(n : Int))
  | '+' :: rest =>
      match rest with
      | [] => none
      | _ => (parseDigitsAux rest 0).map (fun n => (n : Int))
  | cs => (parseDigitsAux cs 0).map (fun n => (n : Int))

/-- `app/core/security.py`: `SECRET_KEY = os.getenv("SECRET_KEY", ...)`,
taken at its default. -/
def SECRET_KEY : String := "your-secret-key-change-in-production"

/-- `ACCESS_TOKEN_EXPIRE_MINUTES` default. -/
def ACCESS_TOKEN_EXPIRE_MINUTES : Int := 30

/-- `REFRESH_TOKEN_EXPIRE_DAYS` default. -/
def REFRESH_TOKEN_EXPIRE_DAYS : Int := 7

/-- A JWT string, abstracted (see the module comment). -/
inductive Jwt where
  | malformed (blob : String)
  | signed (payload : Payload) (key : String)
  deriving DecidableEq, Repr

/-- python-jose coercion `int(claim)` applied to a claim value inside
`_validate_exp` / `_validate_iat`: integers pass through, numeric
strings are converted, anything else raises `JWTClaimsError` (`none`). -/
def cvalToInt : CVal → Option Int
  | CVal.int n => some n
  | CVal.str s => parseIntPy s

/-- python-jose `_validate_iat`: `iat`, if present, must convert to an
integer. -/
def iatValid (p : Payload) : Bool :=
  match pget p "iat" with
  | none => true
  | some v => (cvalToInt v).isSome

/-- python-jose `_validate_exp`: `exp`, if present, must convert to an
integer `e`, and `e < now` is the expired case (leeway 0, so a check
exactly at `exp` still passes). -/
def expValid (p : Payload) (now : Int) : Bool :=
  match pget p "exp" with
  | none => true
  | some v =>
      match cvalToInt v with
      | none => false
      | some e => decide (now ≤ e)

/-- python-jose `_validate_nbf`: `nbf`, if present, must convert to an
integer `n` with `n > now` (leeway 0) the not-yet-valid case. -/
def nbfValid (p : Payload) (now : Int) : Bool :=
  match pget p "nbf" with
  | none => true
  | some v =>
      match cvalToInt v with
      | none => false
      | some n => decide (n ≤ now)

/-- python-jose `_validate_sub` with `subject=None`: `sub`, if present,
must be a string. -/
def subValid (p : Payload) : Bool :=
  match pget p "sub" with
  | none => true
  | some (CVal.str _) => true
  | some (CVal.int _) => false

/-- python-jose `_validate_jti`: `jti`, if present, must be a string. -/
def jtiValid (p : Payload) : Bool :=
  match pget p "jti" with
  | none => true
  | some (CVal.str _) => true
  | some (CVal.int _) => false

/-- python-jose `_validate_aud` with `audience=None`: a present `aud`
claim always fails (the `None` audience is never an element of the
token's audience list, and a non-string/list `aud` is a format error). -/
def audValid (p : Payload) : Bool :=
  (pget p "aud").isNone

/-- python-jose `_validate_at_hash` with `access_token=None`: a present
`at_hash` claim always fails ("No access_token provided to compare
against at_hash claim"). -/
def atHashValid (p : Payload) : Bool :=
  (pget p "at_hash").isNone

/-- The registered-claim validators other than `exp` / `iat`, bundled. -/
def registeredOk (p : Payload) (now : Int) : Bool :=
  nbfValid p now && subValid p && jtiValid p && audValid p &&
    atHashValid p

/-- python-jose `_validate_claims` as run by `jwt.decode` with default
options (all claim validators stay enabled even when `verify_signature`
is disabled; `iss` is skipped because the service passes no issuer). -/
def validateClaims (p : Payload) (now : Int) : Option Payload :=
  if iatValid p && expValid p now && registeredOk p now then some p
  else none

/-- python-jose `jwt.decode(token, key, algorithms=[ALGORITHM],
options)`: structurally decode, verify the signature unless disabled,
then validate claims; every failure raises a `JWTError` subtype,
modelled as `none`. -/
def jwt_decode (tok : Jwt) (key : String) (verify_signature : Bool)
    (now : Int) : Option Payload :=
  match tok with
  | Jwt.malformed _ => none
  | Jwt.signed p k =>
      if verify_signature ∧ k ≠ key then none else validateClaims p now

/-- An `HTTPException` as raised by the token code: status code plus
detail message (the `WWW-Authenticate` header is constant and omitted). -/
structure AuthError where
  status_code : Int
  detail : String
  deriving DecidableEq, Repr

/-- The shared generic 401 raised by `verify_token` and
`get_current_user`. -/
def credentials_exception : AuthError :=
  ⟨401, "Could not validate credentials"⟩

/-- The `to_encode.update(...)` step shared verbatim by both token
creators: the caller's (copied) claims with `exp`, `iat`, `type`
overwritten. -/
def stampClaims (data : Payload) (expire iat : Int) (ty : String) : Payload :=
  pset (pset (pset data "exp" (CVal.int expire)) "iat" (CVal.int iat))
    "type" (CVal.str ty)

/-- `create_access_token(data, expires_delta)` at clock value `now`:
copy the caller's dict, overwrite `exp`, `iat`, `type`, sign with the
secret.  `expires_delta` is the lifetime in seconds; Python's
`if expires_delta:` treats both `None` and `timedelta(0)` as falsy, in
which case the configured default lifetime is used. -/
def create_access_token (data : Payload) (expires_delta : Option Int)
    (now : Int) : Jwt :=
  let expire : Int :=
    match expires_delta with
    | some d => if d = 0 then now + ACCESS_TOKEN_EXPIRE_MINUTES * 60 else now + d
    | none => now + ACCESS_TOKEN_EXPIRE_MINUTES * 60
  Jwt.signed (stampClaims data expire now "access") SECRET_KEY

/-- `create_refresh_token(data, expires_delta)` at clock value `now`:
identical to `create_access_token` except for the default lifetime and
`type = "refresh"`. -/
def create_refresh_token (data : Payload) (expires_delta : Option Int)
    (now : Int) : Jwt :=
  let expire : Int :=
    match expires_delta with
    | some d =>
        if d = 0 then now + REFRESH_TOKEN_EXPIRE_DAYS * 86400 else now + d
    | none => now + REFRESH_TOKEN_EXPIRE_DAYS * 86400
  Jwt.signed (stampClaims data expire now "refresh") SECRET_KEY

/-- `verify_token(token, token_type)` at clock value `now`.  The
`except JWTError` handler only catches jose errors: the two
`HTTPException`s raised inside the `try` block (wrong type, explicit
expiry check) propagate with their own detail strings.  A signed token
whose `exp` claim is a numeric string passes jose's claim validation but
then hits `datetime.fromtimestamp(str)`, an uncaught `TypeError`
surfaced by the framework as a 500; modelled as a status-500 error. -/
def verify_token (token : Jwt) (token_type : String) (now : Int) :
    Except AuthError Payload :=
  match jwt_decode token SECRET_KEY true now with
  | none => Except.error credentials_exception
  | some payload =>
      if pget payload "type" ≠ some (CVal.str token_type) then
        Except.error ⟨401, "Invalid token type. Expected " ++ token_type⟩
      else
        match pget payload "exp" with
        | none => Except.error credentials_exception
        | some (CVal.int e) =>
            if now > e then Except.error ⟨401, "Token has expired"⟩
            else Except.ok payload
        | some (CVal.str _) => Except.error ⟨500, "TypeError"⟩

/-- `decode_token(token)`: `jwt.decode` with
`options = dict of verify_signature to False` — only signature checking
is disabled; jose still validates `exp` and `iat`, so the result depends
on the clock. -/
def decode_token (token : Jwt) (now : Int) : Option Payload :=
  jwt_decode token SECRET_KEY false now

/-- Modelled from the spec: `app/models/user.py` (not under `src/`).
The User Directory contract of spec section 6:
`lookup(user_id: integer) -> { is_active: bool, is_superuser: bool } |
NotFound`, so a user row is its integer id plus the two flags. -/
structure User where
  id : Int
  is_active : Bool
  is_superuser : Bool
  deriving DecidableEq, Repr

/-- `db.query(User).filter(User.id == user_id).first()` over a directory
state given as a list of user rows. -/
def dbFirstUserById (db : List User) (user_id : Int) : Option User :=
  db.find? (fun u => u.id == user_id)

/-- Modelled from the spec: `app/schemas/token.py` `TokenPayload` (not
under `src/`).  Per spec section 3, `sub` is the "string form of a user
id"; `TokenPayload(**payload)` extracts it as an optional string, and a
payload whose `sub` is present but not a string fails pydantic
validation (`ValidationError`, modelled as `Except.error ()`). -/
def tokenPayloadSub (payload : Payload) : Except Unit (Option String) :=
  match pget payload "sub" with
  | none => Except.ok none
  | some (CVal.str s) => Except.ok (some s)
  | some (CVal.int _) => Except.error ()

/-- `get_current_user(db, token)` at clock value `now`.  The token comes
from `OAuth2PasswordBearer`, which itself answers a missing
`Authorization` header with 401 "Not authenticated" (FastAPI
`auto_error`), modelled as the `none` branch.  Note the body decodes the
token with `jwt.decode` directly — it never consults the `type` claim. -/
def get_current_user (db : List User) (token : Option Jwt) (now : Int) :
    Except AuthError User :=
  match token with
  | none => Except.error ⟨401, "Not authenticated"⟩
  | some tok =>
      match jwt_decode tok SECRET_KEY true now with
      | none => Except.error credentials_exception
      | some payload =>
          match tokenPayloadSub payload with
          | Except.error _ => Except.error credentials_exception
          | Except.ok none => Except.error credentials_exception
          | Except.ok (some sub) =>
              match parseIntPy sub with
              | none => Except.error credentials_exception
              | some user_id =>
                  match dbFirstUserById db user_id with
                  | none => Except.error credentials_exception
                  | some user =>
                      if !user.is_active then
                        Except.error ⟨403, "Inactive user"⟩
                      else Except.ok user

/-- `get_optional_current_user(db, token)` at clock value `now`:
`if not token: return None`, then the same decode / parse / lookup chain
as `get_current_user` with every failure collapsed to `None`, including
a found-but-inactive user. -/
def get_optional_current_user (db : List User) (token : Option Jwt)
    (now : Int) : Option User :=
  match token with
  | none => none
  | some tok =>
      match jwt_decode tok SECRET_KEY true now with
      | none => none
      | some payload =>
          match tokenPayloadSub payload with
          | Except.error _ => none
          | Except.ok none => none
          | Except.ok (some sub) =>
              match parseIntPy sub with
              | none => none
              | some user_id =>
                  match dbFirstUserById db user_id with
                  | none => none
                  | some user =>
                      if !user.is_active then none else some user

/-- Observer used to state error-surface results: does the token carry a
string-valued `exp` claim (the one corner where `verify_token` escapes
its own handler, see its doc comment)? -/
def hasStrExp : Jwt → Bool
  | Jwt.malformed _ => false
  | Jwt.signed p _ =>
      match pget p "exp" with
      | some (CVal.str _) => true
      | _ => false

/-! ## Dictionary lemmas -/

theorem pget_pset_self (p : Payload) (k : String) (v : CVal) :
    pget (pset p k v) k = some v := by
  induction p with
  | nil => simp [pget, pset]
  | cons hd tl ih =>
      obtain ⟨k0, w⟩ := hd
      by_cases h0 : k0 = k
      · simp [pget, pset, h0]
      · simp [pget, pset, h0, ih]

theorem pget_pset_ne (p : Payload) (k k' : String) (v : CVal)
    (h : k' ≠ k) : pget (pset p k v) k' = pget p k' := by
  induction p with
  | nil => simp [pget, pset, Ne.symm h]
  | cons hd tl ih =>
      obtain ⟨k0, w⟩ := hd
      by_cases h0 : k0 = k
      · simp [pget, pset, h0, Ne.symm h]
      · simp [pget, pset, h0, ih]

/-! ## Lemmas about stamped payloads and their verification -/

theorem pget_stamp_type (data : Payload) (E I : Int) (ty : String) :
    pget (stampClaims data E I ty) "type" = some (CVal.str ty) :=
  pget_pset_self _ _ _

theorem pget_stamp_iat (data : Payload) (E I : Int) (ty : String) :
    pget (stampClaims data E I ty) "iat" = some (CVal.int I) := by
  unfold stampClaims
  rw [pget_pset_ne _ _ _ _ (by decide), pget_pset_self]

theorem pget_stamp_exp (data : Payload) (E I : Int) (ty : String) :
    pget (stampClaims data E I ty) "exp" = some (CVal.int E) := by
  unfold stampClaims
  rw [pget_pset_ne _ _ _ _ (by decide), pget_pset_ne _ _ _ _ (by decide),
    pget_pset_self]

theorem pget_stamp_other (data : Payload) (E I : Int) (ty : String)
    (k : String) (h1 : k ≠ "exp") (h2 : k ≠ "iat") (h3 : k ≠ "type") :
    pget (stampClaims data E I ty) k = pget data k := by
  unfold stampClaims
  rw [pget_pset_ne _ _ _ _ h3, pget_pset_ne _ _ _ _ h2,
    pget_pset_ne _ _ _ _ h1]

theorem registeredOk_stamp (data : Payload) (E I now : Int)
    (ty : String) :
    registeredOk (stampClaims data E I ty) now = registeredOk data now := by
  unfold registeredOk nbfValid subValid jtiValid audValid atHashValid
  rw [pget_stamp_other data E I ty "nbf" (by decide) (by decide)
      (by decide),
    pget_stamp_other data E I ty "sub" (by decide) (by decide)
      (by decide),
    pget_stamp_other data E I ty "jti" (by decide) (by decide)
      (by decide),
    pget_stamp_other data E I ty "aud" (by decide) (by decide)
      (by decide),
    pget_stamp_other data E I ty "at_hash" (by decide) (by decide)
      (by decide)]

theorem validateClaims_stamp (data : Payload) (E I now : Int)
    (ty : String) :
    validateClaims (stampClaims data E I ty) now =
      if now ≤ E ∧ registeredOk data now = true
      then some (stampClaims data E I ty) else none := by
  unfold validateClaims iatValid expValid
  rw [pget_stamp_iat, pget_stamp_exp, registeredOk_stamp]
  by_cases h1 : now ≤ E <;> by_cases h2 : registeredOk data now = true <;>
    simp [cvalToInt, h1, h2]

theorem validateClaims_eq_some {p q : Payload} {now : Int}
    (h : validateClaims p now = some q) : q = p := by
  unfold validateClaims at h
  split at h
  · exact (Option.some.injEq _ _ ▸ h).symm
  · cases h

theorem verify_token_stamp (data : Payload) (E I now : Int)
    (ty : String) (hreg : registeredOk data now = true) :
    verify_token (Jwt.signed (stampClaims data E I ty) SECRET_KEY) ty now =
      if now ≤ E then Except.ok (stampClaims data E I ty)
      else Except.error credentials_exception := by
  by_cases h : now ≤ E
  · simp [verify_token, jwt_decode, validateClaims_stamp, h, hreg,
      pget_stamp_type, pget_stamp_exp, not_lt.mpr h]
  · simp [verify_token, jwt_decode, validateClaims_stamp, h, hreg]

theorem verify_token_stamp_wrong_type (data : Payload) (E I now : Int)
    (ty ty' : String) (h : ty ≠ ty') :
    (verify_token (Jwt.signed (stampClaims data E I ty) SECRET_KEY) ty'
      now).isOk = false := by
  by_cases hc : now ≤ E ∧ registeredOk data now = true
  · simp [verify_token, jwt_decode, validateClaims_stamp, hc,
      pget_stamp_type, h, Except.isOk, Except.toBool]
  · simp [verify_token, jwt_decode, validateClaims_stamp, hc,
      Except.isOk, Except.toBool]

theorem create_access_token_eq (data : Payload) (L now : Int)
    (hL : L ≠ 0) :
    create_access_token data (some L) now =
      Jwt.signed (stampClaims data (now + L) now "access") SECRET_KEY := by
  simp [create_access_token, hL]

theorem create_refresh_token_eq (data : Payload) (L now : Int)
    (hL : L ≠ 0) :
    create_refresh_token data (some L) now =
      Jwt.signed (stampClaims data (now + L) now "refresh") SECRET_KEY := by
  simp [create_refresh_token, hL]

/-! ## Claim theorems -/

/-- Claim C1, evaluated at the failing input: a validly signed, unexpired
token whose `type` claim is "refresh" (issued by `create_refresh_token`
for subject "1") is presented to `get_current_user` with user 1 present
and active in the directory.  The claim says resolution must fail with
Unauthorized; the code accepts the token and returns the user, because
`get_current_user` decodes with `jwt.decode` directly and never consults
the `type` claim (it does not call `verify_token`). -/
theorem C1_refresh_token_resolves_user :
    get_current_user [⟨1, true, false⟩]
      (some (create_refresh_token [("sub", CVal.str "1")] none 0)) 0 =
      Except.ok ⟨1, true, false⟩ := rfl

/-- Claim C2, counterexample: a token with lifetime 100 issued at time 0
is verified exactly at `iat + L = exp = 100` and verification SUCCEEDS,
contradicting "fails when the verification time equals or exceeds
iat+L". -/
theorem C2_counterexample_boundary_accepted :
    (verify_token (create_access_token [] (some 100) 0) "access"
      100).isOk = true := rfl

/-- Claim C2 as amended: for every claim set whose caller-supplied
claims pass jose's registered-claim validation, nonzero lifetime L and
issuance time t0, `verify_token` of the freshly issued token (access
verified as "access", refresh as "refresh") succeeds exactly when the
verification time is at or before `iat + L`, and fails strictly after
it: the expiry boundary is inclusive on the success side. -/
theorem C2_verify_iff_at_or_before_exp (data : Payload) (L t0 now : Int)
    (hL : L ≠ 0) (hreg : registeredOk data now = true) :
    ((verify_token (create_access_token data (some L) t0) "access"
        now).isOk = true ↔ now ≤ t0 + L) ∧
    ((verify_token (create_refresh_token data (some L) t0) "refresh"
        now).isOk = true ↔ now ≤ t0 + L) := by
  constructor
  · rw [create_access_token_eq data L t0 hL,
      verify_token_stamp data (t0 + L) t0 now "access" hreg]
    by_cases h : now ≤ t0 + L <;>
      simp [h, Except.isOk, Except.toBool]
  · rw [create_refresh_token_eq data L t0 hL,
      verify_token_stamp data (t0 + L) t0 now "refresh" hreg]
    by_cases h : now ≤ t0 + L <;>
      simp [h, Except.isOk, Except.toBool]

/-- Claim C2 witness: the amended theorem applied at a concrete input. -/
theorem C2_witness :
    ((verify_token (create_access_token [] (some 100) 0) "access"
        50).isOk = true ↔ (50 : Int) ≤ 0 + 100) ∧
    ((verify_token (create_refresh_token [] (some 100) 0) "refresh"
        50).isOk = true ↔ (50 : Int) ≤ 0 + 100) :=
  C2_verify_iff_at_or_before_exp [] 100 0 50 (by decide) rfl

/-- Claim C3: for every claim set, optional lifetime override and clock,
a token issued by `create_refresh_token` never verifies as "access", and
a token issued by `create_access_token` never verifies as "refresh". -/
theorem C3_cross_type_verification_fails (data : Payload)
    (ed : Option Int) (t0 now : Int) :
    (verify_token (create_refresh_token data ed t0) "access" now).isOk
        = false ∧
    (verify_token (create_access_token data ed t0) "refresh" now).isOk
        = false := by
  constructor
  · show (verify_token (Jwt.signed (stampClaims data _ t0 "refresh")
      SECRET_KEY) "access" now).isOk = false
    exact verify_token_stamp_wrong_type _ _ _ _ _ _ (by decide)
  · show (verify_token (Jwt.signed (stampClaims data _ t0 "access")
      SECRET_KEY) "refresh" now).isOk = false
    exact verify_token_stamp_wrong_type _ _ _ _ _ _ (by decide)

/-- Claim C4: for every claim set that does not use the reserved keys
`exp`, `iat`, `type` and every lifetime L > 0, verifying the freshly
issued access token with matching expected type at issuance time
succeeds, and the returned payload contains every caller claim with its
original value. -/
theorem C4_issue_verify_roundtrip (data : Payload) (L t0 : Int)
    (hexp : pget data "exp" = none) (hiat : pget data "iat" = none)
    (hty : pget data "type" = none)
    (hreg : registeredOk data t0 = true) (hL : 0 < L) :
    ∃ p, verify_token (create_access_token data (some L) t0) "access" t0
        = Except.ok p ∧
      ∀ k v, pget data k = some v → pget p k = some v := by
  refine ⟨stampClaims data (t0 + L) t0 "access", ?_, ?_⟩
  · rw [create_access_token_eq data L t0 (by omega),
      verify_token_stamp data (t0 + L) t0 t0 "access" hreg]
    simp [show t0 ≤ t0 + L by omega]
  · intro k v hk
    have h1 : k ≠ "exp" := by
      intro hh; rw [hh, hexp] at hk; cases hk
    have h2 : k ≠ "iat" := by
      intro hh; rw [hh, hiat] at hk; cases hk
    have h3 : k ≠ "type" := by
      intro hh; rw [hh, hty] at hk; cases hk
    rw [pget_stamp_other data _ _ _ k h1 h2 h3]
    exact hk

/-- Claim C4 witness: the round-trip theorem applied at a concrete
input. -/
theorem C4_witness :
    ∃ p, verify_token (create_access_token [("sub", CVal.str "42")]
        (some 60) 0) "access" 0 = Except.ok p ∧
      ∀ k v, pget [("sub", CVal.str "42")] k = some v →
        pget p k = some v :=
  C4_issue_verify_roundtrip [("sub", CVal.str "42")] 60 0 rfl rfl rfl
    rfl (by decide)

/-- Claim C5, counterexample: a wrong-type failure of `verify_token`
carries the detail "Invalid token type. Expected access", not the single
generic message — the `HTTPException` raised inside the `try` block is
not caught by `except JWTError`, so callers can tell the type check
failed. -/
theorem C5_counterexample_distinct_details :
    verify_token (create_refresh_token [] none 0) "access" 0 =
      Except.error ⟨401, "Invalid token type. Expected access"⟩ ∧
    "Invalid token type. Expected access" ≠
      "Could not validate credentials" :=
  ⟨rfl, by decide⟩

/-- Claim C5 as amended: every failure of `verify_token` carries status
401, provided the token does not carry a string-valued `exp` claim (that
corner escapes the handler entirely, see `verify_token`); the detail
message however differs by cause, so the checks are externally
distinguishable. -/
theorem jwt_decode_payload {tok : Jwt} {key : String} {vs : Bool}
    {now : Int} {q : Payload} (h : jwt_decode tok key vs now = some q) :
    ∃ k, tok = Jwt.signed q k := by
  cases tok with
  | malformed b => simp [jwt_decode] at h
  | signed p k =>
      refine ⟨k, ?_⟩
      have hq : q = p := by
        simp only [jwt_decode] at h
        by_cases hc : vs = true ∧ k ≠ key
        · rw [if_pos hc] at h; cases h
        · rw [if_neg hc] at h; exact validateClaims_eq_some h
      rw [hq]

theorem C5_all_failures_are_401 (tok : Jwt) (ty : String) (now : Int)
    (e : AuthError) (hstr : hasStrExp tok = false)
    (herr : verify_token tok ty now = Except.error e) :
    e.status_code = 401 := by
  rcases hdec : jwt_decode tok SECRET_KEY true now with _ | payload
  · simp only [verify_token, hdec, Except.error.injEq] at herr
    rw [← herr]; rfl
  · simp only [verify_token, hdec] at herr
    by_cases hty : pget payload "type" ≠ some (CVal.str ty)
    · rw [if_pos hty] at herr
      injection herr with h
      rw [← h]
    · rw [if_neg hty] at herr
      rcases hexp : pget payload "exp" with _ | v
      · simp only [hexp] at herr
        injection herr with h
        rw [← h]; rfl
      · cases v with
        | int x =>
            simp only [hexp] at herr
            by_cases hgt : now > x
            · rw [if_pos hgt] at herr
              injection herr with h
              rw [← h]
            · rw [if_neg hgt] at herr
              exact Except.noConfusion herr
        | str s =>
            obtain ⟨k, rfl⟩ := jwt_decode_payload hdec
            simp [hasStrExp, hexp] at hstr

/-- Claim C5 witness: the amended theorem applied at a concrete failing
input (a refresh token verified as "access"). -/
theorem C5_witness :
    hasStrExp (create_refresh_token [] none 0) = false ∧
    verify_token (create_refresh_token [] none 0) "access" 0 =
      Except.error ⟨401, "Invalid token type. Expected access"⟩ ∧
    (AuthError.mk 401 "Invalid token type. Expected access").status_code
      = 401 :=
  ⟨rfl, rfl,
    C5_all_failures_are_401 (create_refresh_token [] none 0) "access" 0
      ⟨401, "Invalid token type. Expected access"⟩ rfl rfl⟩

/-- Claim C6, counterexample: a valid access token whose subject is an
existing but inactive user is answered by `get_current_user` with
status 403 ("Inactive user"), not with Unauthorized 401 as the claim
states. -/
theorem C6_counterexample_inactive_is_403 :
    get_current_user [⟨1, false, false⟩]
      (some (create_access_token [("sub", CVal.str "1")] none 0)) 0 =
      Except.error ⟨403, "Inactive user"⟩ ∧ (403 : Int) ≠ 401 :=
  ⟨rfl, by decide⟩

/-- Claim C6 as amended: on the primary authentication path, a token
that verifies and resolves to an existing but inactive user surfaces as
HTTP 403 Forbidden with detail "Inactive user" — a class of its own,
distinct from the 401 used for invalid, expired, or missing tokens. -/
theorem C6_inactive_user_forbidden (db : List User) (tok : Jwt)
    (now : Int) (payload : Payload) (s : String) (uid : Int) (u : User)
    (h1 : jwt_decode tok SECRET_KEY true now = some payload)
    (h2 : tokenPayloadSub payload = Except.ok (some s))
    (h3 : parseIntPy s = some uid)
    (h4 : dbFirstUserById db uid = some u)
    (h5 : u.is_active = false) :
    get_current_user db (some tok) now =
      Except.error ⟨403, "Inactive user"⟩ := by
  simp [get_current_user, h1, h2, h3, h4, h5]

/-- Claim C6 witness: the amended theorem applied at a concrete input. -/
theorem C6_witness :
    get_current_user [⟨2, false, true⟩]
      (some (create_access_token [("sub", CVal.str "2")] none 5)) 5 =
      Except.error ⟨403, "Inactive user"⟩ :=
  C6_inactive_user_forbidden [⟨2, false, true⟩]
    (create_access_token [("sub", CVal.str "2")] none 5) 5
    [("sub", CVal.str "2"), ("exp", CVal.int 1805), ("iat", CVal.int 5),
      ("type", CVal.str "access")] "2" 2 ⟨2, false, true⟩
    rfl rfl rfl rfl rfl

/-- Claim C7: for every directory state, token input (including absent)
and clock, `get_optional_current_user` returns exactly the user that
`get_current_user` would return when that resolution succeeds, and
`none` in every case where it would fail — it never fails itself (its
codomain has no error case). -/
theorem C7_optional_refines_current (db : List User)
    (token : Option Jwt) (now : Int) :
    get_optional_current_user db token now =
      (get_current_user db token now).toOption := by
  cases token with
  | none => rfl
  | some tok =>
      rcases hdec : jwt_decode tok SECRET_KEY true now with _ | payload
      · simp [get_current_user, get_optional_current_user, hdec,
          Except.toOption]
      · rcases hsub : tokenPayloadSub payload with e | osub
        · simp [get_current_user, get_optional_current_user, hdec, hsub,
            Except.toOption]
        · rcases osub with _ | s
          · simp [get_current_user, get_optional_current_user, hdec,
              hsub, Except.toOption]
          · rcases hparse : parseIntPy s with _ | uid
            · simp [get_current_user, get_optional_current_user, hdec,
                hsub, hparse, Except.toOption]
            · rcases hfind : dbFirstUserById db uid with _ | u
              · simp [get_current_user, get_optional_current_user, hdec,
                  hsub, hparse, hfind, Except.toOption]
              · rcases hact : u.is_active with _ | _ <;>
                  simp [get_current_user, get_optional_current_user,
                    hdec, hsub, hparse, hfind, hact, Except.toOption]

/-- Claim C8, counterexample: a validly signed access token whose `sub`
parses to the non-positive integer 0 resolves to a `User` whenever the
directory holds an active user with id 0 — `get_current_user` performs
no positivity check on the parsed subject. -/
theorem C8_counterexample_zero_sub_resolves :
    get_current_user [⟨0, true, false⟩]
      (some (create_access_token [("sub", CVal.str "0")] none 0)) 0 =
      Except.ok ⟨0, true, false⟩ ∧ parseIntPy "0" = some 0 :=
  ⟨rfl, rfl⟩

/-- Claim C8 as amended: a token is accepted by `get_current_user` only
when it decodes under the secret, its `sub` claim is a string that
parses as an integer (of any sign — there is no positivity check), and
the directory holds an active user with that id; so missing or
unparsable `sub` is rejected regardless of signature validity, but a
`sub` parsing to zero or a negative integer resolves whenever such a
directory row exists. -/
theorem C8_ok_implies_sub_resolves (db : List User) (tok : Jwt)
    (now : Int) (u : User)
    (h : get_current_user db (some tok) now = Except.ok u) :
    ∃ payload s, jwt_decode tok SECRET_KEY true now = some payload ∧
      tokenPayloadSub payload = Except.ok (some s) ∧
      parseIntPy s = some u.id ∧
      dbFirstUserById db u.id = some u ∧ u.is_active = true := by
  rcases hdec : jwt_decode tok SECRET_KEY true now with _ | payload
  · simp only [get_current_user, hdec] at h
    exact Except.noConfusion h
  simp only [get_current_user, hdec] at h
  rcases hsub : tokenPayloadSub payload with e | osub
  · simp only [hsub] at h
    exact Except.noConfusion h
  simp only [hsub] at h
  rcases osub with _ | s
  · exact Except.noConfusion h
  rcases hparse : parseIntPy s with _ | uid
  · simp only [hparse] at h
    exact Except.noConfusion h
  simp only [hparse] at h
  rcases hfind : dbFirstUserById db uid with _ | u0
  · simp only [hfind] at h
    exact Except.noConfusion h
  simp only [hfind] at h
  rcases hact : u0.is_active with _ | _
  · simp only [hact, Bool.not_false, if_pos] at h
    exact Except.noConfusion h
  · simp only [hact, Bool.not_true] at h
    rw [if_neg (by simp)] at h
    injection h with h0
    subst h0
    have hid : u0.id = uid := by
      have h' := hfind
      unfold dbFirstUserById at h'
      simpa using List.find?_some h'
    refine ⟨payload, s, rfl, hsub, ?_, ?_, hact⟩
    · rw [hid]; exact hparse
    · rw [hid]; exact hfind

/-- Claim C8 witness: the amended theorem applied at a concrete
accepting input. -/
theorem C8_witness :
    ∃ payload s,
      jwt_decode (create_access_token [("sub", CVal.str "7")] none 0)
          SECRET_KEY true 0 = some payload ∧
      tokenPayloadSub payload = Except.ok (some s) ∧
      parseIntPy s = some (User.mk 7 true false).id ∧
      dbFirstUserById [⟨7, true, false⟩] (User.mk 7 true false).id =
        some ⟨7, true, false⟩ ∧
      (User.mk 7 true false).is_active = true :=
  C8_ok_implies_sub_resolves [⟨7, true, false⟩]
    (create_access_token [("sub", CVal.str "7")] none 0) 0
    ⟨7, true, false⟩ rfl

/-- Claim C9, counterexample: a structurally well-formed (signed, even
with the correct key) token whose `exp` lies in the past is answered by
`decode_token` with `none`, not with its payload claims: disabling
`verify_signature` leaves jose's `exp` validation enabled. -/
theorem C9_counterexample_expired_wellformed_none :
    decode_token (Jwt.signed [("exp", CVal.int 10)] SECRET_KEY) 100 =
      none := rfl

/-- Claim C9 as amended: `decode_token` never raises and ignores the
signing key entirely — on any malformed token it returns `none`, and on
any well-formed token it returns exactly what jose claim validation
allows: the payload when `exp` (if present) has not passed, `none` for
an expired or claim-malformed payload. -/
theorem C9_decode_token_ignores_signature (now : Int) (blob : String)
    (p : Payload) (k : String) :
    decode_token (Jwt.malformed blob) now = none ∧
    decode_token (Jwt.signed p k) now = validateClaims p now := by
  constructor
  · rfl
  · simp [decode_token, jwt_decode]

/-- Claim C10: both token creators overwrite the `exp`, `iat` and `type`
claims of the caller's dictionary with freshly computed values
(`exp = now + lifetime`, `iat = now`, `type` the creator's own kind),
for every input dictionary — including ones that already carry those
keys — so a forged type or extended expiry cannot be smuggled in through
the claims argument.  (The caller's dictionary itself is untouched:
the source copies it with `data.copy()` before updating, which the pure
embedding reflects.) -/
theorem C10_reserved_claims_overwritten (data : Payload) (L t0 : Int)
    (hL : L ≠ 0) :
    (∃ p, create_access_token data (some L) t0 = Jwt.signed p SECRET_KEY ∧
      pget p "exp" = some (CVal.int (t0 + L)) ∧
      pget p "iat" = some (CVal.int t0) ∧
      pget p "type" = some (CVal.str "access")) ∧
    (∃ p, create_refresh_token data (some L) t0 = Jwt.signed p SECRET_KEY ∧
      pget p "exp" = some (CVal.int (t0 + L)) ∧
      pget p "iat" = some (CVal.int t0) ∧
      pget p "type" = some (CVal.str "refresh")) := by
  constructor
  · exact ⟨stampClaims data (t0 + L) t0 "access",
      create_access_token_eq data L t0 hL,
      pget_stamp_exp _ _ _ _, pget_stamp_iat _ _ _ _,
      pget_stamp_type _ _ _ _⟩
  · exact ⟨stampClaims data (t0 + L) t0 "refresh",
      create_refresh_token_eq data L t0 hL,
      pget_stamp_exp _ _ _ _, pget_stamp_iat _ _ _ _,
      pget_stamp_type _ _ _ _⟩

/-- Claim C10 witness: the overwrite theorem applied to a dictionary
that tries to smuggle in a forged `type` and an extended `exp`. -/
theorem C10_witness :
    (∃ p, create_access_token
        [("type", CVal.str "admin"), ("exp", CVal.int 999999)]
        (some 60) 0 = Jwt.signed p SECRET_KEY ∧
      pget p "exp" = some (CVal.int (0 + 60)) ∧
      pget p "iat" = some (CVal.int 0) ∧
      pget p "type" = some (CVal.str "access")) ∧
    (∃ p, create_refresh_token
        [("type", CVal.str "admin"), ("exp", CVal.int 999999)]
        (some 60) 0 = Jwt.signed p SECRET_KEY ∧
      pget p "exp" = some (CVal.int (0 + 60)) ∧
      pget p "iat" = some (CVal.int 0) ∧
      pget p "type" = some (CVal.str "refresh")) :=
  C10_reserved_claims_overwritten
    [("type", CVal.str "admin"), ("exp", CVal.int 999999)] 60 0
    (by decide)
